import Mathlib

/-!
Verification of the paginated query controller of the OPTIMADE client
(`aiidalab_optimade/query_filter.py`, class `OptimadeQueryFilterWidget`).

The controller logic of `query_filter.py` is embedded shallowly below.  The
helper functions it imports from `aiidalab_optimade/utils.py`
(`perform_optimade_query`, `handle_errors`, `validate_api_version`) and the
`ResultsPageChooser.set_pagination_data` method are not among the sources of
this repository; each such definition carries a doc comment starting with
`Modelled from the spec:` and follows the specification text.  Every other
definition is translated directly from `query_filter.py`.

HTTP is modelled by a parameter `net : String → GetResult` mapping the URL
that `requests.get` is called on to the observable outcome of the call:
a transport-layer exception, a body that is not valid JSON, or a decoded
JSON body.  Raising a Python exception out of a controller method is
modelled by the `Outcome.raised` variant; the `try/finally` blocks of
`retrieve_data` and `_get_more_results` are modelled by applying the
`finally` state update on every path, including the raising ones.
-/

namespace OptimadeClient

/-- One member of the response `errors` array: `{title, detail, status}`. -/
structure ErrorObj where
  title : Option String
  detail : Option String
  status : Option String
deriving DecidableEq

/-- The chemical-formula display fields read by `_update_structures`. -/
structure Attributes where
  chemical_formula_descriptive : Option String
  chemical_formula_reduced : Option String
  chemical_formula_anonymous : Option String
  chemical_formula_hill : Option String
deriving DecidableEq

/-- A result record: `{id, attributes}`. -/
structure Structure where
  id : String
  attributes : Attributes
deriving DecidableEq

/-- The `meta` object of a response. -/
structure Meta where
  api_version : Option String
  data_returned : Option Nat
deriving DecidableEq

/-- The `links` object of a response. -/
structure Links where
  next : Option String
deriving DecidableEq

/-- The `errors` field of a decoded body.  `emptyDict` is the empty
mapping `errors = {}` used by `_query` as its decode-failure marker,
distinct from an absent field and from a (possibly empty) error list. -/
inductive ErrorsField where
  | absent
  | emptyDict
  | list (es : List ErrorObj)
deriving DecidableEq

/-- A decoded JSON response body.  Each field is `Option`al because the
Python code accesses them with `.get` (or with `[]`, which raises
`KeyError` when absent). -/
structure Response where
  data : Option (List Structure)
  meta : Option Meta
  links : Option Links
  errors : ErrorsField
deriving DecidableEq

/-- Observable outcome of one `requests.get` call at a given URL. -/
inductive GetResult where
  | transportFail (msg : String)
  | decodeFail
  | okBody (r : Response)
deriving DecidableEq

/-- What the query layer hands to the classifier: either the
transport-failure marker or a decoded body. -/
inductive RawResponse where
  | transportFailed (msg : String)
  | body (r : Response)
deriving DecidableEq

/-- The decode-failure marker body built by `_query`: `{"errors": {}}`
(`data`, `meta` and `links` keys absent, `errors` the empty mapping). -/
def decodeMarker : Response :=
  { data := none, meta := none, links := none, errors := .emptyDict }

def defaultMeta : Meta := { api_version := none, data_returned := none }

def defaultLinks : Links := { next := none }

/-- `response.get("meta", {}).get("api_version", "")`. -/
def apiVersionOf (r : Response) : String :=
  ((r.meta.getD defaultMeta).api_version).getD ""

/-- `response.get("meta", {}).get("data_returned", 0)`. -/
def dataReturnedOf (r : Response) : Nat :=
  ((r.meta.getD defaultMeta).data_returned).getD 0

/-- `response.get("links", {})`. -/
def linksOf (r : Response) : Links := r.links.getD defaultLinks

def rawApiVersion : RawResponse → String
  | .transportFailed _ => ""
  | .body r => apiVersionOf r

/-- `response["data"]`: `none` models a `KeyError`. -/
def rawData : RawResponse → Option (List Structure)
  | .transportFailed _ => none
  | .body r => r.data

def rawDataReturned : RawResponse → Nat
  | .transportFailed _ => 0
  | .body r => dataReturnedOf r

def rawLinks : RawResponse → Links
  | .transportFailed _ => defaultLinks
  | .body r => linksOf r

/-- Parameters of the `queries` dict built by `_query` and passed to
`perform_optimade_query`. -/
structure QueryParams where
  base_url : String
  filter_ : String
  format_ : String
  email : Option String
  fields : Option (List String)
  limit : Nat
  offset : Nat
deriving DecidableEq

/-- Modelled from the spec: `perform_optimade_query` lives in
`aiidalab_optimade/utils.py`, which is not among the sources.  Spec
sections 4.2 and 6 give the URL it requests: the base URL plus the
`/structures` endpoint with `filter`, `page_limit`, `page_offset`,
an optional comma-joined `response_fields`, and `response_format`. -/
def optimadeQueryURL (q : QueryParams) : String :=
  q.base_url ++ "/structures?filter=" ++ q.filter_
    ++ "&page_limit=" ++ toString q.limit
    ++ "&page_offset=" ++ toString q.offset
    ++ (match q.fields with
        | some fs => "&response_fields=" ++ String.intercalate "," fs
        | none => "")
    ++ "&response_format=" ++ q.format_

/-- Modelled from the spec: the transport behaviour of
`perform_optimade_query` (`utils.py`, not among the sources), spec
section 4.2: it never raises; a network or timeout failure returns the
transport-failed marker carrying the underlying error text, and a body
that is not valid JSON returns the decode-failed marker with an empty
structured-errors section. -/
def perform_optimade_query : GetResult → RawResponse
  | .transportFail m => .transportFailed m
  | .decodeFail => .body decodeMarker
  | .okBody r => .body r

/-- Human-readable rendering of one API error, from title/detail/status. -/
def formatError (e : ErrorObj) : String :=
  (e.title.getD "") ++ ": " ++ (e.detail.getD "")
    ++ " (status " ++ (e.status.getD "") ++ ")"

def formatErrors (es : List ErrorObj) : String :=
  String.intercalate ". " (es.map formatError)

/-- Modelled from the spec: `handle_errors` (`utils.py`, not among the
sources), following the classifier decision order of spec section 4.3,
steps 1 to 3: the transport-failed marker yields its message; the
decode-failed marker (empty structured-errors section) yields the decode
message; a non-empty `errors` collection yields a message built from each
error, or, in strict/debug mode, raises instead of returning.  A `some`
result is the message the controller displays; `none` means no error. -/
def handle_errors (raw : RawResponse) (debug : Bool) : Except String (Option String) :=
  match raw with
  | .transportFailed m => .ok (some m)
  | .body r =>
    match r.errors with
    | .absent => .ok none
    | .emptyDict => .ok (some "Unable to decode response")
    | .list [] => .ok none
    | .list (e :: es) =>
      if debug then .error (formatErrors (e :: es))
      else .ok (some (formatErrors (e :: es)))

/-- The characters of a version string before the first dot. -/
def majorVersionChars : List Char → List Char
  | [] => []
  | c :: rest => if c = '.' then [] else c :: majorVersionChars rest

/-- Modelled from the spec: `validate_api_version` (`utils.py`, not among
the sources), spec section 4.3 step 4: the supported protocol version is
`1.x`; a present `api_version` whose major version differs fails the gate
and the failure is raised to the caller of `retrieve_data`. -/
def validate_api_version (version : String) : Except String Unit :=
  if version = "" then .ok ()
  else if majorVersionChars version.toList = ['1'] then .ok ()
  else .error ("Only OPTIMADE v1 is supported, got api_version " ++ version)

/-- The cached pagination data held by the `ResultsPageChooser`. -/
structure PaginationData where
  nextLink : Option String
  totalCount : Option Nat
deriving DecidableEq

/-- Modelled from the spec: `ResultsPageChooser.set_pagination_data`
(subwidgets, not among the sources), spec section 4.4: `reset_cache`
clears the cached pagination data (nextLink and totalCount); a passed
`data_returned` sets totalCount; nextLink is updated from `links.next`. -/
def set_pagination_data (p : PaginationData) (data_returned : Option Nat)
    (links_to_page : Links) (reset_cache : Bool) : PaginationData :=
  let p1 : PaginationData :=
    if reset_cache then { nextLink := none, totalCount := none } else p
  let p2 : PaginationData :=
    match data_returned with
    | some n => { p1 with totalCount := some n }
    | none => p1
  { p2 with nextLink := links_to_page.next }

/-- The query button state (description, icon, tooltip, disabled). -/
structure ButtonState where
  description : String
  icon : String
  tooltip : String
  disabled : Bool
deriving DecidableEq

/-- The mutable widget state touched by the query/pagination logic of
`OptimadeQueryFilterWidget`.  `filterValue` is what
`self.filters.collect_value()` returns; the three frozen flags model the
freeze state of the filters, the structure dropdown and the page
chooser; `pagination` is the page chooser cached pagination data. -/
structure WidgetState where
  debug : Bool
  offset : Nat
  page_limit : Nat
  base_url : String
  filterValue : String
  queryButton : ButtonState
  filtersFrozen : Bool
  dropFrozen : Bool
  pageChooserFrozen : Bool
  errorMsg : String
  dropdownOptions : List (String × Structure)
  pagination : PaginationData
deriving DecidableEq

/-- The exclusion predicate added by `_query` (its local
`add_to_filter`). -/
def add_to_filter : String :=
  "NOT structure_features HAS ANY \"disorder\",\"unknown_positions\""

/-- The filter composition of `_query`: the user fragment is truthy
(non-empty) so it is parenthesized and conjoined with the exclusion
predicate, else the exclusion predicate alone. -/
def compose_filter (filter_ : String) : String :=
  if filter_ = "" then add_to_filter
  else "( " ++ filter_ ++ " ) AND ( " ++ add_to_filter ++ " )"

/-- The `queries` dict built by `_query` for a non-link request. -/
def newQueryParams (st : WidgetState) : QueryParams :=
  { base_url := st.base_url
    filter_ := compose_filter st.filterValue
    format_ := "json"
    email := none
    fields := none
    limit := st.page_limit
    offset := st.offset }

/-- The URL `_query` fetches: a provided link verbatim, else the URL
`perform_optimade_query` builds from the `queries` dict. -/
def queryURL (st : WidgetState) (link : Option String) : String :=
  match link with
  | some l => l
  | none => optimadeQueryURL (newQueryParams st)

/-- `_query` (query_filter.py lines 179 to 213).  With a link: calls
`requests.get(link).json()` catching only `JSONDecodeError` (which yields
the marker body `{"errors": {}}`); any transport exception propagates,
modelled by `Except.error`.  Without a link: delegates to
`perform_optimade_query`, which never raises. -/
def query_ (st : WidgetState) (net : String → GetResult) (link : Option String) :
    Except String RawResponse :=
  match link with
  | some l =>
    match net l with
    | .transportFail m => .error m
    | .decodeFail => .ok (.body decodeMarker)
    | .okBody r => .ok (.body r)
  | none => .ok (perform_optimade_query (net (queryURL st none)))

/-- The URL a page advance fetches: for an offset target, the one built
from the updated state with no link; for a link target, the link itself. -/
def advanceURL (st : WidgetState) (c : Sum Nat String) : String :=
  match c with
  | .inl n => queryURL { st with offset := n } none
  | .inr l => l

/-- The Python exceptions that can escape the controller methods. -/
inductive ControllerExn where
  | requestsExn (msg : String)
  | debugExn (msg : String)
  | apiVersionExn (msg : String)
  | keyErrorExn (key : String)
  | badResourceExn (resourceId : String) (msg : String)
deriving DecidableEq

/-- Outcome of one controller command, as observed by the caller:
either the dropdown was filled with options, or an error message was
displayed and the method returned early, or an exception escaped. -/
inductive Outcome where
  | success (options : List (String × Structure))
  | errorDisplayed (msg : String)
  | raised (e : ControllerExn)
deriving DecidableEq

/-- The formula fallback chain of `_update_structures`: descriptive,
then reduced, then anonymous, then hill. -/
def displayFormula (a : Attributes) : Option String :=
  match a.chemical_formula_descriptive with
  | some f => some f
  | none =>
    match a.chemical_formula_reduced with
    | some f => some f
    | none =>
      match a.chemical_formula_anonymous with
      | some f => some f
      | none => a.chemical_formula_hill

def badResourceMsg : String :=
  "At least one of the following chemical formula fields should have a valid value"

/-- `_update_structures` (query_filter.py lines 215 to 246): builds the
dropdown options in order; an entry whose four formula fields are all
absent raises `BadResource`. -/
def update_structures : List Structure → Except ControllerExn (List (String × Structure))
  | [] => .ok []
  | s :: rest =>
    match displayFormula s.attributes with
    | none => .error (.badResourceExn s.id badResourceMsg)
    | some formula =>
      match update_structures rest with
      | .error e => .error e
      | .ok opts => .ok ((formula ++ " (id=" ++ s.id ++ ")", s) :: opts)

/-- `freeze` (query_filter.py lines 156 to 161). -/
def freezeW (st : WidgetState) : WidgetState :=
  { st with
      queryButton := { st.queryButton with disabled := true }
      filtersFrozen := true
      dropFrozen := true
      pageChooserFrozen := true }

/-- The `finally` blocks of `retrieve_data` and `_get_more_results`
followed by `unfreeze`: button restored to the Search state, everything
unfrozen. -/
def finalizeControls (st : WidgetState) : WidgetState :=
  { st with
      queryButton :=
        { description := "Search", icon := "search", tooltip := "Search", disabled := false }
      filtersFrozen := false
      dropFrozen := false
      pageChooserFrozen := false }

/-- The busy button update done at the start of both commands. -/
def busyButton (d : String) (st : WidgetState) : WidgetState :=
  { st with queryButton :=
      { st.queryButton with
          description := d
          icon := "cog"
          tooltip := "Please wait ..." } }

/-- `retrieve_data` (query_filter.py lines 248 to 288): freeze, clear the
status message, set the busy button, query with no link, classify via
`handle_errors` (early return on a message), gate the API version via
`validate_api_version` (raises on failure), build the dropdown options
via `_update_structures` (raises `BadResource` on a record with no
formula), then record pagination with `data_returned`, the links and
`reset_cache=True`.  The `finally` block always restores the controls. -/
def retrieve_data (st0 : WidgetState) (net : String → GetResult) :
    Outcome × WidgetState :=
  let st := busyButton "Querying ... " { (freezeW st0) with errorMsg := "" }
  let body : Outcome × WidgetState :=
    match query_ st net none with
    | .error m => (.raised (.requestsExn m), st)
    | .ok raw =>
      match handle_errors raw st0.debug with
      | .error m => (.raised (.debugExn m), st)
      | .ok (some msg) => (.errorDisplayed msg, { st with errorMsg := msg })
      | .ok none =>
        match validate_api_version (rawApiVersion raw) with
        | .error m => (.raised (.apiVersionExn m), st)
        | .ok _ =>
          match rawData raw with
          | none => (.raised (.keyErrorExn "data"), st)
          | some entries =>
            match update_structures entries with
            | .error e => (.raised e, st)
            | .ok opts =>
              (.success opts,
                { st with
                    dropdownOptions := opts
                    pagination := set_pagination_data st.pagination
                      (some (rawDataReturned raw)) (rawLinks raw) true })
  (body.1, finalizeControls body.2)

/-- `_get_more_results` (query_filter.py lines 118 to 154): an integer
target updates `self.offset` and queries by offset; a string target is a
page link used verbatim.  Then: freeze, busy button, query, classify via
`handle_errors` (early return on a message; no version gate here), build
the dropdown options, and record pagination with only the links (no
`data_returned`, no `reset_cache`).  The `finally` block always restores
the controls. -/
def get_more_results (st0 : WidgetState) (net : String → GetResult)
    (change : Sum Nat String) : Outcome × WidgetState :=
  let stL : WidgetState × Option String :=
    match change with
    | .inl n => ({ st0 with offset := n }, none)
    | .inr s => (st0, some s)
  let st := busyButton "Updating ... " (freezeW stL.1)
  let body : Outcome × WidgetState :=
    match query_ st net stL.2 with
    | .error m => (.raised (.requestsExn m), st)
    | .ok raw =>
      match handle_errors raw st0.debug with
      | .error m => (.raised (.debugExn m), st)
      | .ok (some msg) => (.errorDisplayed msg, { st with errorMsg := msg })
      | .ok none =>
        match rawData raw with
        | none => (.raised (.keyErrorExn "data"), st)
        | some entries =>
          match update_structures entries with
          | .error e => (.raised e, st)
          | .ok opts =>
            (.success opts,
              { st with
                  dropdownOptions := opts
                  pagination := set_pagination_data st.pagination
                    none (rawLinks raw) false })
  (body.1, finalizeControls body.2)

/-- An outcome is well defined for the caller when it is a result set or
a displayed error message, not an escaped exception. -/
def isWellDefined : Outcome → Bool
  | .success _ => true
  | .errorDisplayed _ => true
  | .raised _ => false

/-- The controls are in the restored state: Search button text, icon and
tooltip, button enabled, nothing frozen. -/
def controlsRestored (st : WidgetState) : Bool :=
  st.queryButton.description == "Search" && st.queryButton.icon == "search" &&
  st.queryButton.tooltip == "Search" && !st.queryButton.disabled &&
  !st.filtersFrozen && !st.dropFrozen && !st.pageChooserFrozen

/-- The response carries no API-reported errors. -/
def noApiErrors (r : Response) : Prop :=
  r.errors = .absent ∨ r.errors = .list []

/-- Widget state as built by `__init__` with the defaults, after a
database with base URL was chosen. -/
def initState : WidgetState :=
  { debug := false
    offset := 0
    page_limit := 10
    base_url := "https://example.org"
    filterValue := ""
    queryButton := { description := "Search", icon := "search", tooltip := "Search", disabled := false }
    filtersFrozen := false
    dropFrozen := false
    pageChooserFrozen := false
    errorMsg := ""
    dropdownOptions := []
    pagination := { nextLink := none, totalCount := none } }

def attrsSiO2 : Attributes :=
  { chemical_formula_descriptive := some "SiO2"
    chemical_formula_reduced := none
    chemical_formula_anonymous := none
    chemical_formula_hill := none }

def entrySiO2 : Structure := { id := "1", attributes := attrsSiO2 }

def attrsEmpty : Attributes :=
  { chemical_formula_descriptive := none
    chemical_formula_reduced := none
    chemical_formula_anonymous := none
    chemical_formula_hill := none }

def entryNoFormula : Structure := { id := "2", attributes := attrsEmpty }

def respNoFormula : Response :=
  { data := some [entryNoFormula]
    meta := some { api_version := some "1.0.0", data_returned := some 1 }
    links := some { next := none }
    errors := .absent }

def respV0 : Response :=
  { data := some [entrySiO2]
    meta := some { api_version := some "0.10.1", data_returned := some 1 }
    links := some { next := none }
    errors := .absent }

def errInvalidFilter : ErrorObj :=
  { title := some "Bad Request", detail := some "Invalid filter", status := some "400" }

def respWithErrors : Response :=
  { data := some [entrySiO2]
    meta := some { api_version := some "1.0.0", data_returned := some 1 }
    links := some { next := none }
    errors := .list [errInvalidFilter] }

def respGood : Response :=
  { data := some [entrySiO2]
    meta := some { api_version := some "1.0.0", data_returned := some 1 }
    links := some { next := some "https://example.org/page2" }
    errors := .absent }

/-! ## Helper lemmas -/

theorem update_structures_total (l : List Structure)
    (h : ∀ s ∈ l, (displayFormula s.attributes).isSome) :
    ∃ opts, update_structures l = .ok opts := by
  induction l with
  | nil => exact ⟨[], rfl⟩
  | cons s rest ih =>
    obtain ⟨f, hf⟩ := Option.isSome_iff_exists.mp (h s (List.mem_cons_self s rest))
    obtain ⟨opts, hopts⟩ := ih (fun e he => h e (List.mem_cons_of_mem s he))
    refine ⟨(f ++ " (id=" ++ s.id ++ ")", s) :: opts, ?_⟩
    unfold update_structures
    rw [hf, hopts]

theorem update_structures_error_shape (l : List Structure) (e : ControllerExn)
    (h : update_structures l = .error e) :
    ∃ s, s ∈ l ∧ displayFormula s.attributes = none
      ∧ e = .badResourceExn s.id badResourceMsg := by
  induction l with
  | nil => exact absurd h (by simp [update_structures])
  | cons s rest ih =>
    unfold update_structures at h
    cases hf : displayFormula s.attributes with
    | none =>
      rw [hf] at h
      refine ⟨s, List.mem_cons_self s rest, hf, ?_⟩
      injection h with h
      exact h.symm
    | some f =>
      rw [hf] at h
      cases hr : update_structures rest with
      | error e2 =>
        rw [hr] at h
        injection h with h
        obtain ⟨x, hx, hn, he⟩ := ih (hr.trans (congrArg Except.error h))
        exact ⟨x, List.mem_cons_of_mem s hx, hn, he⟩
      | ok opts =>
        rw [hr] at h
        exact absurd h (by simp)

theorem handle_errors_nodebug_ne_error (raw : RawResponse) (m : String) :
    handle_errors raw false ≠ .error m := by
  rcases raw with t | ⟨d, mt, lk, er⟩
  · simp [handle_errors]
  · rcases er with _ | _ | es
    · simp [handle_errors]
    · simp [handle_errors]
    · rcases es with _ | ⟨e0, es⟩ <;> simp [handle_errors]

theorem handle_errors_noerr (r : Response) (debug : Bool) (h : noApiErrors r) :
    handle_errors (.body r) debug = .ok none := by
  rcases h with h | h <;> simp [handle_errors, h]

theorem handle_errors_list_nodebug (r : Response) (e0 : ErrorObj) (es : List ErrorObj)
    (h : r.errors = .list (e0 :: es)) :
    handle_errors (.body r) false = .ok (some (formatErrors (e0 :: es))) := by
  simp [handle_errors, h]

theorem handle_errors_emptyDict (r : Response) (debug : Bool)
    (h : r.errors = .emptyDict) :
    handle_errors (.body r) debug = .ok (some "Unable to decode response") := by
  simp [handle_errors, h]

theorem handle_errors_list_debug (r : Response) (e0 : ErrorObj) (es : List ErrorObj)
    (h : r.errors = .list (e0 :: es)) :
    handle_errors (.body r) true = .error (formatErrors (e0 :: es)) := by
  simp [handle_errors, h]

/-- A command consults the network only at the one URL it fetches. -/
theorem get_more_results_net_const (st : WidgetState) (net : String → GetResult)
    (c : Sum Nat String) :
    get_more_results st net c = get_more_results st (fun _ => net (advanceURL st c)) c := by
  rcases c with n | l <;> rfl

theorem retrieve_data_net_const (st : WidgetState) (net : String → GetResult) :
    retrieve_data st net = retrieve_data st (fun _ => net (queryURL st none)) := rfl

/-- Outcomes of a page advance on a decoded body, once classification
reports no error: success, or a KeyError on absent data, or a raised
BadResource on a record with no display formula. -/
theorem gmr_okNone_cases (st : WidgetState) (r : Response) (c : Sum Nat String)
    (hE : handle_errors (.body r) st.debug = .ok none) :
    (∃ opts, (get_more_results st (fun _ => .okBody r) c).1 = Outcome.success opts) ∨
    (r.data = none ∧
      (get_more_results st (fun _ => .okBody r) c).1 = Outcome.raised (.keyErrorExn "data")) ∨
    (∃ s, s ∈ r.data.getD [] ∧ displayFormula s.attributes = none ∧
      (get_more_results st (fun _ => .okBody r) c).1
        = Outcome.raised (.badResourceExn s.id badResourceMsg)) := by
  rcases hd : r.data with _ | entries
  · refine Or.inr (Or.inl ⟨rfl, ?_⟩)
    rcases c with n | l <;>
      simp [get_more_results, query_, perform_optimade_query, hE, rawData, hd]
  · rcases hU : update_structures entries with e2 | opts
    · obtain ⟨s, hs, hn, he⟩ := update_structures_error_shape entries e2 hU
      refine Or.inr (Or.inr ⟨s, ?_, hn, ?_⟩)
      · simp [hd]
        exact hs
      · rcases c with n | l <;>
          simp [get_more_results, query_, perform_optimade_query, hE, rawData, hd, hU, he]
    · refine Or.inl ⟨opts, ?_⟩
      rcases c with n | l <;>
        simp [get_more_results, query_, perform_optimade_query, hE, rawData, hd, hU]

/-- Outcomes of a new query on a decoded body, once classification
reports no error: success, or an api-version raise, or a KeyError on
absent data, or a raised BadResource. -/
theorem rd_okNone_cases (st : WidgetState) (r : Response)
    (hE : handle_errors (.body r) st.debug = .ok none) :
    (∃ opts, (retrieve_data st (fun _ => .okBody r)).1 = Outcome.success opts) ∨
    (∃ m, validate_api_version (apiVersionOf r) = .error m ∧
      (retrieve_data st (fun _ => .okBody r)).1 = Outcome.raised (.apiVersionExn m)) ∨
    (r.data = none ∧
      (retrieve_data st (fun _ => .okBody r)).1 = Outcome.raised (.keyErrorExn "data")) ∨
    (∃ s, s ∈ r.data.getD [] ∧ displayFormula s.attributes = none ∧
      (retrieve_data st (fun _ => .okBody r)).1
        = Outcome.raised (.badResourceExn s.id badResourceMsg)) := by
  rcases hv : validate_api_version (apiVersionOf r) with m | u
  · refine Or.inr (Or.inl ⟨m, rfl, ?_⟩)
    simp [retrieve_data, query_, perform_optimade_query, hE, rawApiVersion, hv]
  · rcases hd : r.data with _ | entries
    · refine Or.inr (Or.inr (Or.inl ⟨rfl, ?_⟩))
      simp [retrieve_data, query_, perform_optimade_query, hE, rawApiVersion, hv, rawData, hd]
    · rcases hU : update_structures entries with e2 | opts
      · obtain ⟨s, hs, hn, he⟩ := update_structures_error_shape entries e2 hU
        refine Or.inr (Or.inr (Or.inr ⟨s, ?_, hn, ?_⟩))
        · simp [hd]
          exact hs
        · simp [retrieve_data, query_, perform_optimade_query, hE, rawApiVersion, hv,
            rawData, hd, hU, he]
      · refine Or.inl ⟨opts, ?_⟩
        simp [retrieve_data, query_, perform_optimade_query, hE, rawApiVersion, hv,
          rawData, hd, hU]

/-- Complete outcome case analysis of a page advance on a decoded body. -/
theorem gmr_body_cases (st : WidgetState) (r : Response) (c : Sum Nat String) :
    (∃ opts, (get_more_results st (fun _ => .okBody r) c).1 = Outcome.success opts) ∨
    (∃ m, (get_more_results st (fun _ => .okBody r) c).1 = Outcome.errorDisplayed m) ∨
    (st.debug = true ∧
      ∃ m, (get_more_results st (fun _ => .okBody r) c).1 = Outcome.raised (.debugExn m)) ∨
    (r.data = none ∧
      (get_more_results st (fun _ => .okBody r) c).1 = Outcome.raised (.keyErrorExn "data")) ∨
    (∃ s, s ∈ r.data.getD [] ∧ displayFormula s.attributes = none ∧
      (get_more_results st (fun _ => .okBody r) c).1
        = Outcome.raised (.badResourceExn s.id badResourceMsg)) := by
  rcases herr : r.errors with _ | _ | (_ | ⟨e0, es⟩)
  · rcases gmr_okNone_cases st r c (handle_errors_noerr r st.debug (Or.inl herr))
      with h | h | h
    · exact Or.inl h
    · exact Or.inr (Or.inr (Or.inr (Or.inl h)))
    · exact Or.inr (Or.inr (Or.inr (Or.inr h)))
  · refine Or.inr (Or.inl ⟨"Unable to decode response", ?_⟩)
    rcases c with n | l <;>
      simp [get_more_results, query_, perform_optimade_query,
        handle_errors_emptyDict r st.debug herr]
  · rcases gmr_okNone_cases st r c (handle_errors_noerr r st.debug (Or.inr herr))
      with h | h | h
    · exact Or.inl h
    · exact Or.inr (Or.inr (Or.inr (Or.inl h)))
    · exact Or.inr (Or.inr (Or.inr (Or.inr h)))
  · cases hdbg : st.debug
    · have hE : handle_errors (.body r) st.debug = .ok (some (formatErrors (e0 :: es))) := by
        rw [hdbg]
        exact handle_errors_list_nodebug r e0 es herr
      refine Or.inr (Or.inl ⟨formatErrors (e0 :: es), ?_⟩)
      rcases c with n | l <;>
        simp [get_more_results, query_, perform_optimade_query, hE]
    · have hE : handle_errors (.body r) st.debug = .error (formatErrors (e0 :: es)) := by
        rw [hdbg]
        exact handle_errors_list_debug r e0 es herr
      refine Or.inr (Or.inr (Or.inl ⟨rfl, formatErrors (e0 :: es), ?_⟩))
      rcases c with n | l <;>
        simp [get_more_results, query_, perform_optimade_query, hE]

/-- Complete outcome case analysis of a new query on a decoded body. -/
theorem rd_body_cases (st : WidgetState) (r : Response) :
    (∃ opts, (retrieve_data st (fun _ => .okBody r)).1 = Outcome.success opts) ∨
    (∃ m, (retrieve_data st (fun _ => .okBody r)).1 = Outcome.errorDisplayed m) ∨
    (st.debug = true ∧
      ∃ m, (retrieve_data st (fun _ => .okBody r)).1 = Outcome.raised (.debugExn m)) ∨
    (∃ m, validate_api_version (apiVersionOf r) = .error m ∧
      (retrieve_data st (fun _ => .okBody r)).1 = Outcome.raised (.apiVersionExn m)) ∨
    (r.data = none ∧
      (retrieve_data st (fun _ => .okBody r)).1 = Outcome.raised (.keyErrorExn "data")) ∨
    (∃ s, s ∈ r.data.getD [] ∧ displayFormula s.attributes = none ∧
      (retrieve_data st (fun _ => .okBody r)).1
        = Outcome.raised (.badResourceExn s.id badResourceMsg)) := by
  rcases herr : r.errors with _ | _ | (_ | ⟨e0, es⟩)
  · rcases rd_okNone_cases st r (handle_errors_noerr r st.debug (Or.inl herr))
      with h | h | h | h
    · exact Or.inl h
    · exact Or.inr (Or.inr (Or.inr (Or.inl h)))
    · exact Or.inr (Or.inr (Or.inr (Or.inr (Or.inl h))))
    · exact Or.inr (Or.inr (Or.inr (Or.inr (Or.inr h))))
  · refine Or.inr (Or.inl ⟨"Unable to decode response", ?_⟩)
    simp [retrieve_data, query_, perform_optimade_query,
      handle_errors_emptyDict r st.debug herr]
  · rcases rd_okNone_cases st r (handle_errors_noerr r st.debug (Or.inr herr))
      with h | h | h | h
    · exact Or.inl h
    · exact Or.inr (Or.inr (Or.inr (Or.inl h)))
    · exact Or.inr (Or.inr (Or.inr (Or.inr (Or.inl h))))
    · exact Or.inr (Or.inr (Or.inr (Or.inr (Or.inr h))))
  · cases hdbg : st.debug
    · have hE : handle_errors (.body r) st.debug = .ok (some (formatErrors (e0 :: es))) := by
        rw [hdbg]
        exact handle_errors_list_nodebug r e0 es herr
      refine Or.inr (Or.inl ⟨formatErrors (e0 :: es), ?_⟩)
      simp [retrieve_data, query_, perform_optimade_query, hE]
    · have hE : handle_errors (.body r) st.debug = .error (formatErrors (e0 :: es)) := by
        rw [hdbg]
        exact handle_errors_list_debug r e0 es herr
      refine Or.inr (Or.inr (Or.inl ⟨rfl, formatErrors (e0 :: es), ?_⟩))
      simp [retrieve_data, query_, perform_optimade_query, hE]

/-- A page advance never raises the api-version failure: there is no
version gate in `_get_more_results`. -/
theorem get_more_results_no_version_raise (st : WidgetState)
    (net : String → GetResult) (c : Sum Nat String) (e : String) :
    (get_more_results st net c).1 ≠ Outcome.raised (.apiVersionExn e) := by
  rw [get_more_results_net_const st net c]
  generalize net (advanceURL st c) = g
  rcases g with m | _ | r
  · rcases c with n | l <;>
      simp [get_more_results, query_, perform_optimade_query, handle_errors]
  · rcases c with n | l <;>
      simp [get_more_results, query_, perform_optimade_query, handle_errors, decodeMarker]
  · rcases gmr_body_cases st r c with ⟨o, h⟩ | ⟨m2, h⟩ | ⟨_, m2, h⟩ | ⟨_, h⟩ | ⟨s, _, _, h⟩ <;>
      simp [h]

/-! ## Claim theorems -/

/-- C10: For every invocation of a query or page-advance command, whatever
the outcome, the controller exits with its controls restored: the query
button description, icon, and tooltip are reset to the Search state, the
button is enabled, and every component frozen at entry is unfrozen.  This
holds because both `retrieve_data` and `get_more_results` end with the
`finalizeControls` update modelling their `finally` blocks, applied on
every path, including the ones where an exception escapes. -/
theorem C10_controls_restored (st : WidgetState) (net : String → GetResult)
    (c : Sum Nat String) :
    controlsRestored (retrieve_data st net).2 = true ∧
    controlsRestored (get_more_results st net c).2 = true :=
  ⟨rfl, rfl⟩

/-- C7 counterexample: the claim says the executor never raises on any
request, including link-based pagination GETs.  But the link branch of
`_query` catches only `JSONDecodeError`, so a transport failure on a
link GET propagates as an exception (here: out of `_get_more_results`
to its caller). -/
theorem C7_counterexample :
    query_ initState (fun _ => GetResult.transportFail "Connection aborted")
        (some "https://x/page2") = Except.error "Connection aborted" ∧
    (get_more_results initState (fun _ => GetResult.transportFail "Connection aborted")
        (Sum.inr "https://x/page2")).1
      = Outcome.raised (ControllerExn.requestsExn "Connection aborted") :=
  ⟨rfl, rfl⟩

/-- C7 amended: for offset-based requests, the executor
(`perform_optimade_query`) never raises: a transport failure returns the
transport-failed marker carrying the error text, and an invalid JSON
body returns the decode-failed marker.  For link-based GETs, an invalid
JSON body returns the decode-failed marker with the empty
structured-errors section, but a network or timeout failure raises to
the caller (only `JSONDecodeError` is caught). -/
theorem C7_executor_amended (st : WidgetState) (net : String → GetResult)
    (m l : String) (r : Response) :
    query_ st net none = .ok (perform_optimade_query (net (queryURL st none))) ∧
    query_ st (fun _ => .transportFail m) none = .ok (.transportFailed m) ∧
    query_ st (fun _ => .decodeFail) none = .ok (.body decodeMarker) ∧
    query_ st (fun _ => .okBody r) none = .ok (.body r) ∧
    query_ st (fun _ => .decodeFail) (some l) = .ok (.body decodeMarker) ∧
    decodeMarker.errors = ErrorsField.emptyDict ∧
    query_ st (fun _ => .transportFail m) (some l) = .error m :=
  ⟨rfl, rfl, rfl, rfl, rfl, rfl, rfl⟩

/-- C8 counterexample: the claim says that on a transport failure the
pagination state, offset included, is exactly as it was before the
command.  But `_get_more_results` assigns `self.offset` from an integer
target before issuing the query, so after a failed page advance to
offset 10 the offset is 10, not the prior 0. -/
theorem C8_counterexample :
    (get_more_results initState (fun _ => GetResult.transportFail "Connection aborted")
        (Sum.inl 10)).1 = Outcome.errorDisplayed "Connection aborted" ∧
    (get_more_results initState (fun _ => GetResult.transportFail "Connection aborted")
        (Sum.inl 10)).2.offset = 10 ∧
    initState.offset = 0 :=
  ⟨rfl, rfl, rfl⟩

/-- C8 amended: on a transport failure the outcome is the transport
error (the marker message displayed on the offset path; the raised
requests exception on the link path), and the cached pagination data
(nextLink, totalCount) is untouched; but for an offset-target page
advance the offset field has already been updated to the requested
target before the request and is not rolled back. -/
theorem C8_transport_error_amended (st : WidgetState) (m l : String) (n : Nat) :
    (get_more_results st (fun _ => .transportFail m) (Sum.inl n)).1
      = Outcome.errorDisplayed m ∧
    (get_more_results st (fun _ => .transportFail m) (Sum.inl n)).2.pagination
      = st.pagination ∧
    (get_more_results st (fun _ => .transportFail m) (Sum.inl n)).2.offset = n ∧
    (get_more_results st (fun _ => .transportFail m) (Sum.inr l)).1
      = Outcome.raised (.requestsExn m) ∧
    (get_more_results st (fun _ => .transportFail m) (Sum.inr l)).2.pagination
      = st.pagination ∧
    (get_more_results st (fun _ => .transportFail m) (Sum.inr l)).2.offset = st.offset ∧
    (retrieve_data st (fun _ => .transportFail m)).1 = Outcome.errorDisplayed m ∧
    (retrieve_data st (fun _ => .transportFail m)).2.pagination = st.pagination ∧
    (retrieve_data st (fun _ => .transportFail m)).2.offset = st.offset :=
  ⟨rfl, rfl, rfl, rfl, rfl, rfl, rfl, rfl, rfl⟩

/-- C2: a new query (`retrieve_data`) does not reset the offset before
the request is built: the request it issues is exactly
`newQueryParams st`, whose offset is the current widget offset.  At a
state left at offset 20 by a page advance, the new-query request carries
`page_offset=20`, where the claim requires 0. -/
theorem C2_new_query_offset_not_reset :
    (∀ st net, retrieve_data st net
        = retrieve_data st (fun _ => net (optimadeQueryURL (newQueryParams st)))) ∧
    (newQueryParams { initState with offset := 20 }).offset = 20 ∧
    optimadeQueryURL (newQueryParams { initState with offset := 20 })
      = "https://example.org/structures?filter=NOT structure_features HAS ANY \"disorder\",\"unknown_positions\"&page_limit=10&page_offset=20&response_format=json" :=
  ⟨fun _ _ => rfl, rfl, rfl⟩

/-- C3 counterexample: the claim says a blank (all-whitespace) fragment
composes to the exclusion predicate alone, but `_query` tests Python
truthiness (non-emptiness), so the blank fragment `" "` is parenthesized
and conjoined. -/
theorem C3_counterexample :
    " ".toList = [' '] ∧ (' ').isWhitespace = true ∧
    compose_filter " " ≠ add_to_filter := by
  refine ⟨rfl, by decide, ?_⟩
  decide

/-- C3 amended: an empty fragment composes to the exclusion predicate
alone; every non-empty fragment X, whitespace-only ones included, composes
to the conjunction with X parenthesized. -/
theorem C3_compose_amended (s : String) (h : s ≠ "") :
    compose_filter "" = add_to_filter ∧
    compose_filter s = "( " ++ s ++ " ) AND ( " ++ add_to_filter ++ " )" :=
  ⟨rfl, by unfold compose_filter; rw [if_neg h]⟩

/-- C3 witness at the non-blank fragment X. -/
theorem C3_compose_amended_witness :
    "X" ≠ "" ∧ (compose_filter "" = add_to_filter ∧
      compose_filter "X" = "( X ) AND ( " ++ add_to_filter ++ " )") :=
  ⟨by decide, C3_compose_amended "X" (by decide)⟩

/-- C4: for every response with a non-empty errors collection, both a new
query and a page advance (in non-debug mode) classify it as an API error:
the formatted error message is displayed and the method returns before
any data records are extracted (the dropdown options are unchanged) or
the cached pagination data is updated — the outcome is never `success`,
even when the response also carries a populated data array (`r.data` is
arbitrary here). -/
theorem C4_api_error_precedence (st : WidgetState) (r : Response) (e0 : ErrorObj)
    (es : List ErrorObj) (c : Sum Nat String)
    (hdebug : st.debug = false) (herr : r.errors = .list (e0 :: es)) :
    (retrieve_data st (fun _ => .okBody r)).1
      = Outcome.errorDisplayed (formatErrors (e0 :: es)) ∧
    (retrieve_data st (fun _ => .okBody r)).2.dropdownOptions = st.dropdownOptions ∧
    (retrieve_data st (fun _ => .okBody r)).2.pagination = st.pagination ∧
    (get_more_results st (fun _ => .okBody r) c).1
      = Outcome.errorDisplayed (formatErrors (e0 :: es)) ∧
    (get_more_results st (fun _ => .okBody r) c).2.dropdownOptions = st.dropdownOptions ∧
    (get_more_results st (fun _ => .okBody r) c).2.pagination = st.pagination := by
  have hE : handle_errors (.body r) st.debug = .ok (some (formatErrors (e0 :: es))) := by
    rw [hdebug]
    exact handle_errors_list_nodebug r e0 es herr
  refine ⟨?_, ?_, ?_, ?_, ?_, ?_⟩ <;>
    rcases c with n | l <;>
    simp [retrieve_data, get_more_results, query_, perform_optimade_query, hE,
      busyButton, freezeW, finalizeControls]

/-- C4 witness: a concrete response holding both one API error and a
populated data array, classified as the displayed error message. -/
theorem C4_api_error_precedence_witness :
    initState.debug = false ∧
    respWithErrors.errors = ErrorsField.list (errInvalidFilter :: []) ∧
    ((retrieve_data initState (fun _ => .okBody respWithErrors)).1
        = Outcome.errorDisplayed (formatErrors (errInvalidFilter :: [])) ∧
      (retrieve_data initState (fun _ => .okBody respWithErrors)).2.dropdownOptions
        = initState.dropdownOptions ∧
      (retrieve_data initState (fun _ => .okBody respWithErrors)).2.pagination
        = initState.pagination ∧
      (get_more_results initState (fun _ => .okBody respWithErrors) (Sum.inl 0)).1
        = Outcome.errorDisplayed (formatErrors (errInvalidFilter :: [])) ∧
      (get_more_results initState (fun _ => .okBody respWithErrors) (Sum.inl 0)).2.dropdownOptions
        = initState.dropdownOptions ∧
      (get_more_results initState (fun _ => .okBody respWithErrors) (Sum.inl 0)).2.pagination
        = initState.pagination) :=
  ⟨rfl, rfl,
    C4_api_error_precedence initState respWithErrors errInvalidFilter [] (Sum.inl 0) rfl rfl⟩

/-- C9: after a successful page advance the cached pagination data keeps
its totalCount and only the next-page link is updated from `links.next`;
after a successful new query totalCount is recorded from
`meta.data_returned` and the cached data is reset before being set, so
the result is independent of the prior cached values. -/
theorem C9_pagination_recording (st : WidgetState) (r : Response)
    (entries : List Structure) (n : Nat)
    (hnoerr : noApiErrors r) (hdata : r.data = some entries)
    (hform : ∀ s ∈ entries, (displayFormula s.attributes).isSome)
    (hver : validate_api_version (apiVersionOf r) = .ok ()) :
    ((get_more_results st (fun _ => .okBody r) (Sum.inl n)).2.pagination.totalCount
        = st.pagination.totalCount) ∧
    ((get_more_results st (fun _ => .okBody r) (Sum.inl n)).2.pagination.nextLink
        = (linksOf r).next) ∧
    ((retrieve_data st (fun _ => .okBody r)).2.pagination.totalCount
        = some (dataReturnedOf r)) ∧
    ((retrieve_data st (fun _ => .okBody r)).2.pagination.nextLink
        = (linksOf r).next) := by
  have hE : handle_errors (.body r) st.debug = .ok none :=
    handle_errors_noerr r st.debug hnoerr
  obtain ⟨opts, hopts⟩ := update_structures_total entries hform
  refine ⟨?_, ?_, ?_, ?_⟩ <;>
    simp [get_more_results, retrieve_data, query_, perform_optimade_query, hE,
      rawApiVersion, hver, rawData, hdata, hopts, set_pagination_data,
      rawLinks, rawDataReturned, busyButton, freezeW, finalizeControls]

/-- C9 witness at a concrete successful response carrying a next link. -/
theorem C9_pagination_recording_witness :
    noApiErrors respGood ∧
    respGood.data = some [entrySiO2] ∧
    (∀ s ∈ [entrySiO2], (displayFormula s.attributes).isSome) ∧
    validate_api_version (apiVersionOf respGood) = .ok () ∧
    (((get_more_results initState (fun _ => .okBody respGood) (Sum.inl 10)).2.pagination.totalCount
        = initState.pagination.totalCount) ∧
      ((get_more_results initState (fun _ => .okBody respGood) (Sum.inl 10)).2.pagination.nextLink
        = (linksOf respGood).next) ∧
      ((retrieve_data initState (fun _ => .okBody respGood)).2.pagination.totalCount
        = some (dataReturnedOf respGood)) ∧
      ((retrieve_data initState (fun _ => .okBody respGood)).2.pagination.nextLink
        = (linksOf respGood).next)) :=
  ⟨Or.inl rfl, rfl, by decide, by rfl,
    C9_pagination_recording initState respGood [entrySiO2] 10 (Or.inl rfl) rfl
      (by decide) (by rfl)⟩

/-- C6 counterexample: a page advance whose response advertises
api_version 0.10.1 succeeds and fills the dropdown — `_get_more_results`
never checks the version, although the gate itself would reject the
version (second conjunct). -/
theorem C6_counterexample :
    (get_more_results initState (fun _ => GetResult.okBody respV0) (Sum.inl 10)).1
      = Outcome.success [("SiO2 (id=1)", entrySiO2)] ∧
    validate_api_version "0.10.1"
      = Except.error "Only OPTIMADE v1 is supported, got api_version 0.10.1" ∧
    apiVersionOf respV0 = "0.10.1" :=
  ⟨by rfl, by rfl, rfl⟩

/-- C6 amended: the version gate runs only on new queries: there a
response advertising an unsupported version (no other error present)
makes `validate_api_version` raise out of `retrieve_data`, while 1.0.0
and 1.2.0 pass the gate; a page advance performs no version check at all
and can never produce the version failure. -/
theorem C6_version_gate_amended (st : WidgetState) (net : String → GetResult)
    (c : Sum Nat String) (r : Response) (m : String)
    (hnoerr : noApiErrors r)
    (hver : validate_api_version (apiVersionOf r) = .error m) :
    (retrieve_data st (fun _ => .okBody r)).1 = Outcome.raised (.apiVersionExn m) ∧
    (∀ e, (get_more_results st net c).1 ≠ Outcome.raised (.apiVersionExn e)) ∧
    validate_api_version "1.0.0" = .ok () ∧
    validate_api_version "1.2.0" = .ok () ∧
    validate_api_version "0.10.1"
      = .error "Only OPTIMADE v1 is supported, got api_version 0.10.1" := by
  refine ⟨?_, fun e => get_more_results_no_version_raise st net c e, by rfl, by rfl, by rfl⟩
  have hE : handle_errors (.body r) st.debug = .ok none :=
    handle_errors_noerr r st.debug hnoerr
  simp [retrieve_data, query_, perform_optimade_query, hE, rawApiVersion, hver]

/-- C6 witness at the concrete 0.10.1 response. -/
theorem C6_version_gate_amended_witness :
    noApiErrors respV0 ∧
    validate_api_version (apiVersionOf respV0)
      = Except.error "Only OPTIMADE v1 is supported, got api_version 0.10.1" ∧
    ((retrieve_data initState (fun _ => .okBody respV0)).1
        = Outcome.raised
            (.apiVersionExn "Only OPTIMADE v1 is supported, got api_version 0.10.1") ∧
      (∀ e, (get_more_results initState (fun _ => GetResult.decodeFail) (Sum.inl 0)).1
          ≠ Outcome.raised (.apiVersionExn e)) ∧
      validate_api_version "1.0.0" = .ok () ∧
      validate_api_version "1.2.0" = .ok () ∧
      validate_api_version "0.10.1"
        = .error "Only OPTIMADE v1 is supported, got api_version 0.10.1") :=
  ⟨Or.inl rfl, by rfl,
    C6_version_gate_amended initState (fun _ => GetResult.decodeFail) (Sum.inl 0)
      respV0 "Only OPTIMADE v1 is supported, got api_version 0.10.1" (Or.inl rfl) (by rfl)⟩

/-- C1 counterexample: a new query whose response is well formed but
whose single record lacks all four chemical-formula display fields does
not terminate in a result set or a displayed message: `_update_structures`
raises `BadResource` and the exception escapes `retrieve_data`. -/
theorem C1_counterexample :
    isWellDefined (retrieve_data initState (fun _ => GetResult.okBody respNoFormula)).1
      = false ∧
    (retrieve_data initState (fun _ => GetResult.okBody respNoFormula)).1
      = Outcome.raised (ControllerExn.badResourceExn "2" badResourceMsg) :=
  ⟨by rfl, by rfl⟩

/-- C1 amended: in non-debug mode every query and page-advance path
terminates in a well-defined outcome (a result set or a displayed error
message), except that the following escape as exceptions: on a new
query, a response failing the version gate, a response without a data
key, or a record with no display formula; on a page advance, a transport
failure on a link target (the link GET catches only JSONDecodeError), a
response without a data key, or a record with no display formula. -/
theorem C1_no_unhandled_fault_amended (st : WidgetState) (g : GetResult)
    (c : Sum Nat String) (hdebug : st.debug = false) :
    (isWellDefined (retrieve_data st (fun _ => g)).1 = true ∨
      ∃ r, g = .okBody r ∧
        ((∃ m, validate_api_version (apiVersionOf r) = .error m) ∨
          r.data = none ∨
          ∃ s, s ∈ r.data.getD [] ∧ displayFormula s.attributes = none)) ∧
    (isWellDefined (get_more_results st (fun _ => g) c).1 = true ∨
      (∃ l m, c = Sum.inr l ∧ g = .transportFail m) ∨
      ∃ r, g = .okBody r ∧
        (r.data = none ∨
          ∃ s, s ∈ r.data.getD [] ∧ displayFormula s.attributes = none)) := by
  constructor
  · rcases g with m | _ | r
    · exact Or.inl rfl
    · exact Or.inl rfl
    · rcases rd_body_cases st r
        with ⟨o, h⟩ | ⟨m2, h⟩ | ⟨hdbg2, _⟩ | ⟨m2, hv, h⟩ | ⟨hd, h⟩ | ⟨s, hs, hn, h⟩
      · exact Or.inl (by rw [h]; rfl)
      · exact Or.inl (by rw [h]; rfl)
      · rw [hdebug] at hdbg2
        exact absurd hdbg2 (by simp)
      · exact Or.inr ⟨r, rfl, Or.inl ⟨m2, hv⟩⟩
      · exact Or.inr ⟨r, rfl, Or.inr (Or.inl hd)⟩
      · exact Or.inr ⟨r, rfl, Or.inr (Or.inr ⟨s, hs, hn⟩)⟩
  · rcases g with m | _ | r
    · rcases c with n | l
      · exact Or.inl rfl
      · exact Or.inr (Or.inl ⟨l, m, rfl, rfl⟩)
    · rcases c with n | l <;> exact Or.inl rfl
    · rcases gmr_body_cases st r c
        with ⟨o, h⟩ | ⟨m2, h⟩ | ⟨hdbg2, _⟩ | ⟨hd, h⟩ | ⟨s, hs, hn, h⟩
      · exact Or.inl (by rw [h]; rfl)
      · exact Or.inl (by rw [h]; rfl)
      · rw [hdebug] at hdbg2
        exact absurd hdbg2 (by simp)
      · exact Or.inr (Or.inr ⟨r, rfl, Or.inl hd⟩)
      · exact Or.inr (Or.inr ⟨r, rfl, Or.inr ⟨s, hs, hn⟩⟩)

/-- C1 witness at a concrete malformed-JSON response (both commands
terminate in the decode message being displayed). -/
theorem C1_no_unhandled_fault_amended_witness :
    initState.debug = false ∧
    ((isWellDefined (retrieve_data initState (fun _ => GetResult.decodeFail)).1 = true ∨
      ∃ r, GetResult.decodeFail = GetResult.okBody r ∧
        ((∃ m, validate_api_version (apiVersionOf r) = .error m) ∨
          r.data = none ∨
          ∃ s, s ∈ r.data.getD [] ∧ displayFormula s.attributes = none)) ∧
    (isWellDefined (get_more_results initState (fun _ => GetResult.decodeFail) (Sum.inl 0)).1
        = true ∨
      (∃ l m, (Sum.inl 0 : Sum Nat String) = Sum.inr l ∧
        GetResult.decodeFail = GetResult.transportFail m) ∨
      ∃ r, GetResult.decodeFail = GetResult.okBody r ∧
        (r.data = none ∨
          ∃ s, s ∈ r.data.getD [] ∧ displayFormula s.attributes = none))) :=
  ⟨rfl, C1_no_unhandled_fault_amended initState GetResult.decodeFail (Sum.inl 0) rfl⟩

/-- C5: pagination is dual mode and a link target is authoritative: a
link target is fetched verbatim (for any widget state, offset included)
and the whole command depends on the network only through that URL;
an offset target updates the offset and fetches the parameterized URL
built from the base URL with the composed filter, `page_limit`, and
`page_offset`. -/
theorem C5_pagination_dual_mode (st : WidgetState) (net net2 : String → GetResult)
    (l : String) (n : Nat) (hagree : net2 l = net l) :
    queryURL st (some l) = l ∧
    advanceURL st (Sum.inr l) = l ∧
    get_more_results st net2 (Sum.inr l) = get_more_results st net (Sum.inr l) ∧
    advanceURL st (Sum.inl n)
      = optimadeQueryURL
          { base_url := st.base_url
            filter_ := compose_filter st.filterValue
            format_ := "json"
            email := none
            fields := none
            limit := st.page_limit
            offset := n } := by
  refine ⟨rfl, rfl, ?_, rfl⟩
  rw [get_more_results_net_const st net2 (Sum.inr l),
    get_more_results_net_const st net (Sum.inr l)]
  simp only [advanceURL]
  rw [hagree]

/-- C5 witness: two networks agreeing at the link URL. -/
theorem C5_pagination_dual_mode_witness :
    (fun _ : String => GetResult.decodeFail) "https://x/page2"
        = (fun _ : String => GetResult.decodeFail) "https://x/page2" ∧
    (queryURL initState (some "https://x/page2") = "https://x/page2" ∧
      advanceURL initState (Sum.inr "https://x/page2") = "https://x/page2" ∧
      get_more_results initState (fun _ : String => GetResult.decodeFail)
          (Sum.inr "https://x/page2")
        = get_more_results initState (fun _ : String => GetResult.decodeFail)
            (Sum.inr "https://x/page2") ∧
      advanceURL initState (Sum.inl 10)
        = optimadeQueryURL
            { base_url := initState.base_url
              filter_ := compose_filter initState.filterValue
              format_ := "json"
              email := none
              fields := none
              limit := initState.page_limit
              offset := 10 }) :=
  ⟨rfl, C5_pagination_dual_mode initState (fun _ => GetResult.decodeFail)
    (fun _ => GetResult.decodeFail) "https://x/page2" 10 rfl⟩

end OptimadeClient
